import Mathlib

/-!
Verification of the sphinx-typesense content-extraction and indexing
pipeline against its natural-language specification.

The Python sources under `src/sphinx_typesense/` are shallowly embedded:
pure functions become Lean functions, the stateful indexing entry points
become explicit functions over an environment record that carries the
outcomes of each external effect (health checks, collection operations,
the bulk import, the subprocess run), and exceptions become `Except`.
-/

namespace SphinxTypesense

/-! ## Python string primitives used by the sources -/

/-- Whitespace set of Python str.strip / regex \s (ASCII range). -/
def isPyWs (c : Char) : Bool :=
  c = ' ' || c = '\t' || c = '\n' || c = '\r' || c = '\x0b' || c = '\x0c'

/-- Python str.strip(): drop leading and trailing whitespace. -/
def pyStrip (s : String) : String :=
  String.mk (((s.toList.dropWhile isPyWs).reverse.dropWhile isPyWs).reverse)

def startsWithL : List Char → List Char → Bool
  | [], _ => true
  | _ :: _, [] => false
  | n :: ns, h :: hs => n = h && startsWithL ns hs

def hasSubAux (needle : List Char) : List Char → Bool
  | [] => needle.isEmpty
  | c :: rest => startsWithL needle (c :: rest) || hasSubAux needle rest

/-- Python membership test `needle in hay` for strings. -/
def strContains (hay needle : String) : Bool :=
  hasSubAux needle.toList hay.toList

/-- Python str.lower() (ASCII case fold, which is all the sources compare). -/
def pyLower (s : String) : String := String.mk (s.toList.map Char.toLower)

/-- Truthiness of a Python string: nonempty. -/
def pyTruthy (s : String) : Bool := s ≠ ""

/-- Truthiness of an optional Python string (None or "" are falsy). -/
def pyTruthyOpt : Option String → Bool
  | some s => pyTruthy s
  | none => false

/-! ## UTF-8 encoding (Python bytes = str.encode()) -/

/-- UTF-8 encoding of one scalar value, as byte values. -/
def utf8Char (c : Char) : List Nat :=
  let n := c.toNat
  if n < 0x80 then [n]
  else if n < 0x800 then
    [0xC0 + n / 64, 0x80 + n % 64]
  else if n < 0x10000 then
    [0xE0 + n / 4096, 0x80 + (n / 64) % 64, 0x80 + n % 64]
  else
    [0xF0 + n / 262144, 0x80 + (n / 4096) % 64, 0x80 + (n / 64) % 64, 0x80 + n % 64]

/-- UTF-8 encoding of a string, as byte values. -/
def utf8Encode (s : String) : List Nat :=
  s.toList.foldr (fun c acc => utf8Char c ++ acc) []

/-! ## SHA-256 (hashlib.sha256, modelled bit-for-bit on Nat mod 2^32) -/

def w32 (n : Nat) : Nat := n % 4294967296

def rotr32 (k n : Nat) : Nat := w32 ((n >>> k) ||| (n <<< (32 - k)))

/-- The 64 SHA-256 round constants (decimal). -/
def sha256K : List Nat :=
  [1116352408, 1899447441, 3049323471, 3921009573, 961987163, 1508970993,
   2453635748, 2870763221, 3624381080, 310598401, 607225278, 1426881987,
   1925078388, 2162078206, 2614888103, 3248222580, 3835390401, 4022224774,
   264347078, 604807628, 770255983, 1249150122, 1555081692, 1996064986,
   2554220882, 2821834349, 2952996808, 3210313671, 3336571891, 3584528711,
   113926993, 338241895, 666307205, 773529912, 1294757372, 1396182291,
   1695183700, 1986661051, 2177026350, 2456956037, 2730485921, 2820302411,
   3259730800, 3345764771, 3516065817, 3600352804, 4094571909, 275423344,
   430227734, 506948616, 659060556, 883997877, 958139571, 1322822218,
   1537002063, 1747873779, 1955562222, 2024104815, 2227730452, 2361852424,
   2428436474, 2756734187, 3204031479, 3329325298]

/-- Big-endian 8-byte encoding of a (64-bit) length value. -/
def be64 (n : Nat) : List Nat :=
  [(n >>> 56) % 256, (n >>> 48) % 256, (n >>> 40) % 256, (n >>> 32) % 256,
   (n >>> 24) % 256, (n >>> 16) % 256, (n >>> 8) % 256, n % 256]

/-- SHA-256 message padding: 0x80, zeros to 56 mod 64, 8-byte bit length. -/
def sha256Pad (msg : List Nat) : List Nat :=
  let L := msg.length
  let zeros := (119 - (L % 64)) % 64
  msg ++ [128] ++ List.replicate zeros 0 ++ be64 (8 * L)

/-- Split a byte list into 64-byte blocks (fuel bounds the block count). -/
def chunks64Go (fuel : Nat) (l : List Nat) : List (List Nat) :=
  match fuel with
  | 0 => []
  | fuel + 1 => if l.isEmpty then [] else l.take 64 :: chunks64Go fuel (l.drop 64)

def chunks64 (l : List Nat) : List (List Nat) := chunks64Go l.length l

/-- Read a 64-byte block as sixteen big-endian 32-bit words. -/
def blockWords : List Nat → List Nat
  | b0 :: b1 :: b2 :: b3 :: rest =>
      (b0 * 16777216 + b1 * 65536 + b2 * 256 + b3) :: blockWords rest
  | _ => []

/-- Extend the 16 block words by `count` further schedule entries. -/
def extendScheduleGo (count : Nat) (w : Array Nat) : Array Nat :=
  match count with
  | 0 => w
  | count + 1 =>
    let i := w.size
    let s0v := w.getD (i - 15) 0
    let s1v := w.getD (i - 2) 0
    let s0 := (rotr32 7 s0v) ^^^ (rotr32 18 s0v) ^^^ (s0v >>> 3)
    let s1 := (rotr32 17 s1v) ^^^ (rotr32 19 s1v) ^^^ (s1v >>> 10)
    extendScheduleGo count (w.push (w32 (w.getD (i - 16) 0 + s0 + w.getD (i - 7) 0 + s1)))

/-- Extend the 16 block words to the 64-entry message schedule. -/
def extendSchedule (w : Array Nat) : Array Nat := extendScheduleGo 48 w

/-- The eight working variables of the compression function. -/
structure Hash8 where
  a : Nat
  b : Nat
  c : Nat
  d : Nat
  e : Nat
  f : Nat
  g : Nat
  h : Nat
deriving DecidableEq, Repr

/-- The eight initial hash values (decimal). -/
def sha256Init : Hash8 :=
  ⟨1779033703, 3144134277, 1013904242, 2773480762,
   1359893119, 2600822924, 528734635, 1541459225⟩

/-- One round of the SHA-256 compression function. -/
def sha256Round (st : Hash8) (kw : Nat × Nat) : Hash8 :=
  let S1 := (rotr32 6 st.e) ^^^ (rotr32 11 st.e) ^^^ (rotr32 25 st.e)
  let ch := (st.e &&& st.f) ^^^ ((st.e ^^^ 4294967295) &&& st.g)
  let temp1 := w32 (st.h + S1 + ch + kw.1 + kw.2)
  let S0 := (rotr32 2 st.a) ^^^ (rotr32 13 st.a) ^^^ (rotr32 22 st.a)
  let maj := (st.a &&& st.b) ^^^ (st.a &&& st.c) ^^^ (st.b &&& st.c)
  let temp2 := w32 (S0 + maj)
  ⟨w32 (temp1 + temp2), st.a, st.b, st.c, w32 (st.d + temp1), st.e, st.f, st.g⟩

/-- Compress one 64-byte block into the running hash state. -/
def sha256Block (st : Hash8) (block : List Nat) : Hash8 :=
  let w := (extendSchedule (Array.mk (blockWords block))).toList
  let r := (sha256K.zip w).foldl sha256Round st
  ⟨w32 (st.a + r.a), w32 (st.b + r.b), w32 (st.c + r.c), w32 (st.d + r.d),
   w32 (st.e + r.e), w32 (st.f + r.f), w32 (st.g + r.g), w32 (st.h + r.h)⟩

/-- Big-endian 4-byte encoding of a 32-bit word. -/
def be32 (n : Nat) : List Nat :=
  [(n >>> 24) % 256, (n >>> 16) % 256, (n >>> 8) % 256, n % 256]

/-- SHA-256 digest (32 bytes) of a byte list. -/
def sha256Bytes (msg : List Nat) : List Nat :=
  let st := (chunks64 (sha256Pad msg)).foldl sha256Block sha256Init
  be32 st.a ++ be32 st.b ++ be32 st.c ++ be32 st.d ++
  be32 st.e ++ be32 st.f ++ be32 st.g ++ be32 st.h

def hexDigit (n : Nat) : Char :=
  if n < 10 then Char.ofNat (48 + n) else Char.ofNat (87 + n)

/-- Lowercase hex rendering of a byte list (hexdigest output). -/
def toHex (bs : List Nat) : String :=
  String.mk (bs.foldr (fun b acc => hexDigit (b / 16) :: hexDigit (b % 16) :: acc) [])

/-- hashlib.sha256(s.encode()).hexdigest() for a Python str. -/
def sha256Hex (s : String) : String := toHex (sha256Bytes (utf8Encode s))

set_option maxRecDepth 100000 in
example : sha256Hex "" = "e3b0c44298fc1c149afbf4c8996fb92427ae41e4649b934ca495991b7852b855" := by
  decide

set_option maxRecDepth 100000 in
example : sha256Hex "abc" = "ba7816bf8f01cfea414140de5dae2223b00361a396177a9cb410ff61f20015ad" := by
  decide

/-! ## HTML model (BeautifulSoup trees) -/

/-- A parsed HTML node: a tag with attributes and children, or a text node. -/
inductive Html where
  | elem (tag : String) (attrs : List (String × String)) (children : List Html)
  | text (s : String)

def Html.tagOf : Html → String
  | .elem t _ _ => t
  | .text _ => ""

def Html.childrenOf : Html → List Html
  | .elem _ _ cs => cs
  | .text _ => []

/-- element.get(key): first attribute with that name, None if absent. -/
def Html.getAttr (e : Html) (k : String) : Option String :=
  match e with
  | .elem _ attrs _ => (attrs.find? (fun p => p.1 = k)).map (fun p => p.2)
  | .text _ => none

/-- element.get(key, d): attribute lookup with a default. -/
def Html.getAttrD (e : Html) (k d : String) : String := (e.getAttr k).getD d

def Html.hasAttr (e : Html) (k : String) : Bool := (e.getAttr k).isSome

def Html.isElem : Html → Bool
  | .elem _ _ _ => true
  | .text _ => false

mutual

/-- All descendant text segments of a node, in document order. -/
def htmlTexts : Html → List String
  | .text s => [s]
  | .elem _ _ cs => htmlTextsList cs

/-- All descendant text segments of a forest, in document order. -/
def htmlTextsList : List Html → List String
  | [] => []
  | c :: rest => htmlTexts c ++ htmlTextsList rest

end

/-- element.get_text(strip=True): strip each segment and concatenate. -/
def Html.getTextStrip (e : Html) : String :=
  String.join ((htmlTexts e).map pyStrip)

mutual

/-- First node of a subtree (root included) satisfying pred, pre-order. -/
def findDescH (p : Html → Bool) : Html → Option Html
  | .text _ => none
  | .elem t a cs =>
    if p (.elem t a cs) then some (.elem t a cs) else findDescList p cs

/-- First node of a forest satisfying pred, pre-order. -/
def findDescList (p : Html → Bool) : List Html → Option Html
  | [] => none
  | c :: rest =>
    match findDescH p c with
    | some r => some r
    | none => findDescList p rest

end

/-- element.find(pred): first descendant element satisfying pred, pre-order
(the element itself is excluded, matching BeautifulSoup's find). -/
def Html.findDesc (e : Html) (p : Html → Bool) : Option Html :=
  findDescList p e.childrenOf

/-- Position of an element inside a page: siblings before it (nearest first,
text nodes included) and the chain of enclosing elements (nearest first). -/
structure Ctx where
  prevSiblings : List Html
  ancestors : List Html

/-- element.find_previous_sibling(): nearest preceding sibling tag. -/
def Ctx.prevSiblingTag (ctx : Ctx) : Option Html :=
  ctx.prevSiblings.find? Html.isElem

/-- element.find_parent(tag): nearest enclosing element with that tag. -/
def Ctx.findParent (ctx : Ctx) (tag : String) : Option Html :=
  ctx.ancestors.find? (fun a => a.tagOf = tag)

mutual

/-- find_all over one node: emit it when its tag is wanted, then descend.
`anc` is the enclosing-element chain, `prev` the siblings before it. -/
def findAllTagsH (tags : List String) (anc : List Html) (prev : List Html) :
    Html → List (Html × Ctx)
  | .text _ => []
  | .elem t a cs =>
    (if tags.contains t then [(Html.elem t a cs, ⟨prev, anc⟩)] else []) ++
    findAllTags tags (Html.elem t a cs :: anc) [] cs

/-- soup.find_all(tags): all descendant elements whose tag is in the list,
in document order (pre-order), paired with their position context. -/
def findAllTags (tags : List String) (anc : List Html) (prev : List Html) :
    List Html → List (Html × Ctx)
  | [] => []
  | c :: rest => findAllTagsH tags anc prev c ++ findAllTags tags anc (c :: prev) rest

end

/-! ## CSS selectors (the subset the sources use: tag, .class, [attr=value]) -/

/-- A parsed simple selector. -/
structure Selector where
  tag : Option String
  classes : List String
  attrEqs : List (String × String)
deriving DecidableEq, Repr

def isIdentChar (c : Char) : Bool :=
  c.isAlpha || c.isDigit || c = '-' || c = '_'

/-- Read a run of identifier characters. -/
def identSpan (cs : List Char) : String × List Char :=
  ((cs.takeWhile isIdentChar).asString, cs.dropWhile isIdentChar)

/-- Read the .class and [attr=value] parts of a selector (fuel-bounded). -/
def selParts (fuel : Nat) (cs : List Char) : List String × List (String × String) :=
  match fuel with
  | 0 => ([], [])
  | fuel + 1 =>
    match cs with
    | '.' :: rest =>
      let (c, rest') := identSpan rest
      let (cls, ats) := selParts fuel rest'
      (c :: cls, ats)
    | '[' :: rest =>
      let (a, rest') := identSpan rest
      match rest' with
      | '=' :: rest'' =>
        let v := (rest''.takeWhile (fun c => c ≠ ']')).asString
        let tail := (rest''.dropWhile (fun c => c ≠ ']')).drop 1
        let (cls, ats) := selParts fuel tail
        (cls, (a, v) :: ats)
      | _ => ([], [])
    | _ => ([], [])

def parseSelector (s : String) : Selector :=
  let cs := s.toList
  let (tag, rest) := identSpan cs
  let (cls, ats) := selParts s.length rest
  ⟨if tag = "" then none else some tag, cls, ats⟩

/-- Split on whitespace runs (the class attribute token rule). -/
def wordsAux (cur : List Char) : List Char → List String
  | [] => if cur.isEmpty then [] else [cur.reverse.asString]
  | c :: rest =>
    if isPyWs c then
      if cur.isEmpty then wordsAux [] rest
      else cur.reverse.asString :: wordsAux [] rest
    else wordsAux (c :: cur) rest

/-- The class attribute as a whitespace-separated token list. -/
def Html.classList (e : Html) : List String :=
  wordsAux [] (e.getAttrD "class" "").toList

/-- Does an element match a parsed simple selector? -/
def selMatches (sel : Selector) (e : Html) : Bool :=
  e.isElem &&
  (match sel.tag with | some t => e.tagOf = t | none => true) &&
  sel.classes.all (fun c => (e.classList).contains c) &&
  sel.attrEqs.all (fun p => e.getAttr p.1 = some p.2)

mutual

/-- First node of a subtree (root included) matching the selector. -/
def selectFirstH (sel : Selector) : Html → Option Html
  | .text _ => none
  | .elem t a cs =>
    if selMatches sel (.elem t a cs) then some (.elem t a cs)
    else selectFirstList sel cs

/-- First node of a forest matching the selector, pre-order. -/
def selectFirstList (sel : Selector) : List Html → Option Html
  | [] => none
  | c :: rest =>
    match selectFirstH sel c with
    | some r => some r
    | none => selectFirstList sel rest

end

/-- soup.select_one(selector): first match in the document, root included. -/
def selectOne (s : String) (doc : Html) : Option Html :=
  selectFirstList (parseSelector s) [doc]

/-! ## config.py -/

namespace Config

/-- config.py DEFAULT_CONTENT_SELECTORS (the registered config default). -/
def DEFAULT_CONTENT_SELECTORS : List String :=
  [".wy-nav-content-wrap", "article.bd-article", ".body", "article[role=main]", "main"]

/-- The configuration slice get_effective_backend reads: the configured
backend string, the conf.py admin API key, and the TYPESENSE_API_KEY
environment variable (None when unset). -/
structure BackendConfig where
  typesense_backend : String
  typesense_api_key : String
  envApiKey : Option String
deriving DecidableEq, Repr

/-- config.get_effective_backend. -/
def get_effective_backend (config : BackendConfig) : String :=
  if config.typesense_backend = "auto" then
    if pyTruthy config.typesense_api_key || pyTruthyOpt config.envApiKey then
      "typesense"
    else "pagefind"
  else config.typesense_backend

end Config

/-! ## themes.py -/

namespace Themes

/-- themes.py THEME_SELECTORS registry. -/
def THEME_SELECTORS : List (String × List String) :=
  [("sphinx_rtd_theme", [".wy-nav-content-wrap", ".wy-nav-content", "[role=main]"]),
   ("furo", ["article[role=main]", ".content"]),
   ("alabaster", [".body", ".document"]),
   ("pydata_sphinx_theme", ["article.bd-article", "main.bd-main", "main.bd-content"]),
   ("sphinx_book_theme", ["main#main-content", "article", "article.bd-article"]),
   ("shibuya", ["article.yue[role=main]", "article[role=main]", "main.sy-main"])]

/-- themes.py DEFAULT_CONTENT_SELECTORS (generic fallback). -/
def DEFAULT_CONTENT_SELECTORS : List String :=
  ["article[role=main]", "main", ".body", ".document", "[role=main]"]

/-- themes.get_content_selectors. -/
def get_content_selectors (theme_name : Option String)
    (custom_selectors : Option (List String)) : List String :=
  match custom_selectors with
  | some l => l
  | none =>
    match theme_name with
    | some t =>
      if t ≠ "" then
        match THEME_SELECTORS.find? (fun p => p.1 = t) with
        | some p => p.2
        | none => DEFAULT_CONTENT_SELECTORS
      else DEFAULT_CONTENT_SELECTORS
    | none => DEFAULT_CONTENT_SELECTORS

end Themes

/-! ## backends/typesense.py: content location, anchors, documents -/

namespace Ts

/-- The literal fallback list inside TypesenseBackend._get_content_element. -/
def fallback_selectors : List String :=
  [".wy-nav-content-wrap", "article.bd-article", ".body", "article[role=main]", "main"]

/-- The selector list _get_content_element iterates:
`self.app.config.typesense_content_selectors or [...]` (None or an empty
list is falsy and falls back to the literal list). -/
def selectors_used (cfgSelectors : Option (List String)) : List String :=
  match cfgSelectors with
  | some l => if l.isEmpty then fallback_selectors else l
  | none => fallback_selectors

/-- The selector loop body: first selector whose select_one hits. -/
def firstSelectorMatch : List String → Html → Option Html
  | [], _ => none
  | s :: rest, doc =>
    match selectOne s doc with
    | some e => some e
    | none => firstSelectorMatch rest doc

/-- TypesenseBackend._get_content_element. -/
def get_content_element (cfgSelectors : Option (List String)) (soup : Html) :
    Option Html :=
  firstSelectorMatch (selectors_used cfgSelectors) soup

/-- The section-ancestor fallback tail of TypesenseBackend._find_anchor:
prefer a labeled span with an id inside the section, else the section id. -/
def sectionAnchor (ctx : Ctx) : String :=
  match ctx.findParent "section" with
  | some sec =>
    match sec.findDesc (fun x => x.tagOf = "span" && x.hasAttr "id") with
    | some label => label.getAttrD "id" ""
    | none => if sec.getAttrD "id" "" ≠ "" then sec.getAttrD "id" "" else ""
  | none => ""

/-- TypesenseBackend._find_anchor: own id, child anchor id, child anchor
name, preceding sibling anchor id, enclosing section label/id, else "". -/
def find_anchor (ctx : Ctx) (element : Html) : String :=
  let element_id := element.getAttrD "id" ""
  if element_id ≠ "" then element_id
  else
    match element.findDesc (fun x => x.tagOf = "a" && x.hasAttr "id") with
    | some anchor => anchor.getAttrD "id" ""
    | none =>
      match element.findDesc (fun x => x.tagOf = "a" && x.hasAttr "name") with
      | some anchor => anchor.getAttrD "name" ""
      | none =>
        match ctx.prevSiblingTag with
        | some ps =>
          if ps.tagOf = "a" && ps.getAttrD "id" "" ≠ "" then ps.getAttrD "id" ""
          else sectionAnchor ctx
        | none => sectionAnchor ctx

/-- Build-wide values copied into every document. -/
structure DocCfg where
  typesense_doc_version : String
  language : String
deriving DecidableEq, Repr

/-- The 4-slot hierarchy dict threaded through _extract_documents. -/
structure Hierarchy where
  lvl0 : String
  lvl1 : String
  lvl2 : String
  lvl3 : String
deriving DecidableEq, Repr

/-- The flat search document _create_document returns (hierarchy.lvlN keys
are the lvlN fields here). -/
structure Document where
  id : String
  lvl0 : String
  lvl1 : String
  lvl2 : String
  lvl3 : String
  lvl4 : String
  lvl5 : String
  lvl6 : String
  content : String
  url : String
  url_without_anchor : String
  anchor : String
  type : String
  version : String
  language : String
  weight : Int
  item_priority : Int
deriving DecidableEq, Repr

def DOC_TYPE_WEIGHTS : List (String × Int) :=
  [("lvl0", 100), ("lvl1", 90), ("lvl2", 80), ("lvl3", 70), ("content", 50)]

def DOC_TYPE_PRIORITIES : List (String × Int) :=
  [("lvl0", 100), ("lvl1", 90), ("lvl2", 80), ("lvl3", 70), ("content", 50)]

/-- TypesenseBackend._get_weight: DOC_TYPE_WEIGHTS.get(doc_type, 50). -/
def get_weight (doc_type : String) : Int :=
  ((DOC_TYPE_WEIGHTS.find? (fun p => p.1 = doc_type)).map (fun p => p.2)).getD 50

/-- TypesenseBackend._get_priority: DOC_TYPE_PRIORITIES.get(doc_type, 50). -/
def get_priority (doc_type : String) : Int :=
  ((DOC_TYPE_PRIORITIES.find? (fun p => p.1 = doc_type)).map (fun p => p.2)).getD 50

/-- `anchor = element.get("id", "") or self._find_anchor(element)`. -/
def resolveAnchor (ctx : Ctx) (element : Html) : String :=
  let own := element.getAttrD "id" ""
  if own ≠ "" then own else find_anchor ctx element

/-- `url = f"{url_base}#{anchor}" if anchor else url_base`. -/
def docUrl (ctx : Ctx) (element : Html) (url_base : String) : String :=
  let anchor := resolveAnchor ctx element
  if anchor ≠ "" then url_base ++ "#" ++ anchor else url_base

/-- TypesenseBackend._create_document. -/
def create_document (cfg : DocCfg) (hierarchy : Hierarchy) (content : String)
    (url_base : String) (element : Html) (ctx : Ctx) (doc_type : String) :
    Document :=
  let anchor := resolveAnchor ctx element
  let url := if anchor ≠ "" then url_base ++ "#" ++ anchor else url_base
  { id := (sha256Hex (url ++ ":" ++ content.take 100)).take 32
    lvl0 := hierarchy.lvl0
    lvl1 := hierarchy.lvl1
    lvl2 := hierarchy.lvl2
    lvl3 := hierarchy.lvl3
    lvl4 := ""
    lvl5 := ""
    lvl6 := ""
    content := content
    url := url
    url_without_anchor := url_base
    anchor := anchor
    type := doc_type
    version := cfg.typesense_doc_version
    language := if cfg.language = "" then "en" else cfg.language
    weight := get_weight doc_type
    item_priority := get_priority doc_type }

/-- The tag filter of content.find_all in _extract_documents. -/
def EXTRACT_TAGS : List String := ["h1", "h2", "h3", "h4", "p", "li"]

/-- The loop body of _extract_documents for one matched element:
the updated hierarchy and the documents yielded for this element. -/
def processElement (cfg : DocCfg) (url_base : String) (hierarchy : Hierarchy)
    (ec : Html × Ctx) : Hierarchy × List Document :=
  let element := ec.1
  let text := element.getTextStrip
  if text = "" then (hierarchy, [])
  else if element.tagOf = "h1" then
    let h' : Hierarchy := ⟨text, "", "", ""⟩
    (h', [create_document cfg h' "" url_base element ec.2 "lvl0"])
  else if element.tagOf = "h2" then
    let h' : Hierarchy := { hierarchy with lvl1 := text, lvl2 := "", lvl3 := "" }
    (h', [create_document cfg h' "" url_base element ec.2 "lvl1"])
  else if element.tagOf = "h3" then
    let h' : Hierarchy := { hierarchy with lvl2 := text, lvl3 := "" }
    (h', [create_document cfg h' "" url_base element ec.2 "lvl2"])
  else if element.tagOf = "h4" then
    let h' : Hierarchy := { hierarchy with lvl3 := text }
    (h', [create_document cfg h' "" url_base element ec.2 "lvl3"])
  else if element.tagOf = "p" || element.tagOf = "li" then
    (hierarchy, [create_document cfg hierarchy text url_base element ec.2 "content"])
  else (hierarchy, [])

/-- The generator loop of _extract_documents over the matched elements. -/
def extractLoop (cfg : DocCfg) (url_base : String) :
    Hierarchy → List (Html × Ctx) → List Document
  | _, [] => []
  | hierarchy, ec :: rest =>
    let step := processElement cfg url_base hierarchy ec
    step.2 ++ extractLoop cfg url_base step.1 rest

/-- TypesenseBackend._extract_documents from a located content root:
fresh hierarchy state, then one pass over the matched elements. -/
def extract_documents (cfg : DocCfg) (url_base : String) (content : Html) :
    List Document :=
  extractLoop cfg url_base ⟨"", "", "", ""⟩
    (findAllTags EXTRACT_TAGS [content] [] content.childrenOf)

end Ts

/-! ## backends/typesense.py: connection retry state machine -/

namespace Ts

def MAX_RETRIES : Nat := 3

def INITIAL_BACKOFF_SECONDS : ℚ := 1

def BACKOFF_MULTIPLIER : ℚ := 2

/-- What one health-check attempt against the server produced:
a healthy reply, an unhealthy reply, or one of the caught exceptions. -/
inductive HealthResult where
  | healthy
  | notHealthy
  | requestUnauthorized
  | serviceUnavailable
  | reqTimeout
  | connError
deriving DecidableEq, Repr

/-- What _check_connection did: the returned verdict, the backoff sleeps it
performed in order, and how many health checks it issued. -/
structure ConnResult where
  ok : Bool
  sleeps : List ℚ
  attempts : Nat
deriving DecidableEq, Repr

/-- The retry loop of _check_connection. `health n` is what the n-th health
check (n counted from 1) would produce; `remaining` counts the attempts
still budgeted including the current one, so `remaining = 0` after the
current try means this was the last attempt and no sleep follows it. -/
def connLoop (health : Nat → HealthResult) :
    Nat → Nat → ℚ → ConnResult
  | 0, _, _ => ⟨false, [], 0⟩
  | remaining + 1, attempt, backoff =>
    if health attempt = .healthy then ⟨true, [], 1⟩
    else if health attempt = .requestUnauthorized then ⟨false, [], 1⟩
    else if remaining = 0 then ⟨false, [], 1⟩
    else
      let r := connLoop health remaining (attempt + 1) (backoff * BACKOFF_MULTIPLIER)
      ⟨r.ok, backoff :: r.sleeps, r.attempts + 1⟩

/-- TypesenseBackend._check_connection: return the cached verdict when one
exists, else run the retry loop from attempt 1. -/
def check_connection (cached : Option Bool) (health : Nat → HealthResult) :
    ConnResult :=
  match cached with
  | some b => ⟨b, [], 0⟩
  | none => connLoop health MAX_RETRIES 1 INITIAL_BACKOFF_SECONDS

/-- TypesenseBackend.is_available: delegates to _check_connection. -/
def is_available (cached : Option Bool) (health : Nat → HealthResult) : Bool :=
  (check_connection cached health).ok

/-- The transient failures of the claim: ServiceUnavailable, a timeout, or a
network error (the health check returning False also falls through, but is
not an error). -/
def isTransientErr : HealthResult → Bool
  | .serviceUnavailable => true
  | .reqTimeout => true
  | .connError => true
  | _ => false

end Ts

/-! ## backends/typesense.py: index_all over an effect environment -/

deriving instance DecidableEq for Except

namespace Ts

/-- The exception families distinguished by the except clauses. -/
inductive ExKind where
  | serviceUnavailable
  | reqTimeout
  | httpStatus0
  | connectionError
  | timeoutError
  | osError
  | requestUnauthorized
  | objectNotFound
  | typesenseApiError
  | other
deriving DecidableEq, Repr

/-- A raised exception: its family and its str() rendering. -/
structure TsException where
  kind : ExKind
  msg : String
deriving DecidableEq, Repr

/-- One HTML file under the build output directory: its URL relative to the
output root and its parse result (none = read/decode error). -/
structure HtmlFile where
  relUrl : String
  parsed : Option Html

/-- The environment index_all runs against: the cached availability verdict,
the health-check oracle, collection-management outcomes, configuration, the
HTML files found by rglob, and the bulk-import outcome (per-item success
flags on success). -/
structure TsEnv where
  cached : Option Bool
  health : Nat → HealthResult
  dropExisting : Bool
  deleteOutcome : Except TsException Unit
  createOutcome : Except TsException Unit
  cfgSelectors : Option (List String)
  docCfg : DocCfg
  files : List HtmlFile
  importOutcome : Except TsException (List Bool)

/-- TypesenseBackend._ensure_collection: optional drop tolerating
ObjectNotFound, then create tolerating "already exists"; anything else
propagates. -/
def ensure_collection (env : TsEnv) : Except TsException Unit :=
  let afterDrop : Except TsException Unit :=
    if env.dropExisting then
      match env.deleteOutcome with
      | .ok _ => .ok ()
      | .error e => if e.kind = .objectNotFound then .ok () else .error e
    else .ok ()
  match afterDrop with
  | .error e => .error e
  | .ok _ =>
    match env.createOutcome with
    | .ok _ => .ok ()
    | .error e =>
      if strContains (pyLower e.msg) "already exists" then .ok () else .error e

/-- The except clauses wrapped around the bulk import call. -/
def importCaught : ExKind → Bool
  | .serviceUnavailable => true
  | .reqTimeout => true
  | .httpStatus0 => true
  | .connectionError => true
  | .timeoutError => true
  | .osError => true
  | _ => false

/-- TypesenseBackend._extract_documents for one file, parse errors and
missing content roots yielding nothing. -/
def extractFile (env : TsEnv) (f : HtmlFile) : List Document :=
  match f.parsed with
  | none => []
  | some soup =>
    match get_content_element env.cfgSelectors soup with
    | none => []
    | some content => extract_documents env.docCfg f.relUrl content

/-- All documents extracted across the build output. -/
def extractedDocs (env : TsEnv) : List Document :=
  env.files.foldr (fun f acc => extractFile env f ++ acc) []

/-- TypesenseBackend.index_all. Per-item import failures are only counted
and logged, so a successful import call returns the full document count. -/
def index_all (env : TsEnv) : Except TsException Nat :=
  if (check_connection env.cached env.health).ok = false then .ok 0
  else
    match ensure_collection env with
    | .error e => .error e
    | .ok _ =>
      let documents := extractedDocs env
      if documents.isEmpty then .ok documents.length
      else
        match env.importOutcome with
        | .ok _items => .ok documents.length
        | .error e => if importCaught e.kind then .ok 0 else .error e

end Ts

/-! ## backends/pagefind.py -/

namespace Pf

/-- Python \s: at least one whitespace character. -/
def wsPlus (cs : List Char) : Option (List Char) :=
  match cs with
  | c :: rest => if SphinxTypesense.isPyWs c then some (rest.dropWhile SphinxTypesense.isPyWs) else none
  | [] => none

/-- (\d+): a nonempty digit run and its value. -/
def digitsPlus (cs : List Char) : Option (Nat × List Char) :=
  match cs with
  | c :: _ =>
    if c.isDigit then
      let ds := cs.takeWhile Char.isDigit
      some (ds.foldl (fun n d => n * 10 + (d.toNat - 48)) 0, cs.dropWhile Char.isDigit)
    else none
  | [] => none

/-- Drop a literal prefix. -/
def dropLit : List Char → List Char → Option (List Char)
  | [], cs => some cs
  | _, [] => none
  | l :: ls, c :: cs => if l = c then dropLit ls cs else none

/-- Match `lit\s+(\d+)\s+page` at this position (input already lowercased). -/
def litNumPageAt (lit : String) (cs : List Char) : Option Nat := do
  let cs ← dropLit lit.toList cs
  let cs ← wsPlus cs
  let (n, cs) ← digitsPlus cs
  let cs ← wsPlus cs
  let _ ← dropLit "page".toList cs
  pure n

/-- Match `(\d+)\s+page` at this position. -/
def numPageAt (cs : List Char) : Option Nat := do
  let (n, cs) ← digitsPlus cs
  let cs ← wsPlus cs
  let _ ← dropLit "page".toList cs
  pure n

/-- re.search: leftmost position where the matcher hits. -/
def scanFirst (m : List Char → Option Nat) : List Char → Option Nat
  | [] => none
  | c :: rest =>
    match m (c :: rest) with
    | some n => some n
    | none => scanFirst m rest

/-- re.search(r"Indexed\s+(\d+)\s+page", output, re.IGNORECASE). -/
def scanIndexed (output : String) : Option Nat :=
  scanFirst (litNumPageAt "indexed") (pyLower output).toList

/-- re.search(r"on\s+(\d+)\s+page", output, re.IGNORECASE). -/
def scanOn (output : String) : Option Nat :=
  scanFirst (litNumPageAt "on") (pyLower output).toList

/-- re.search(r"(\d+)\s+pages?", output, re.IGNORECASE). -/
def scanBare (output : String) : Option Nat :=
  scanFirst numPageAt (pyLower output).toList

/-- PagefindBackend._parse_page_count: the three patterns in order, else 0. -/
def parse_page_count (output : String) : Nat :=
  match scanIndexed output with
  | some n => n
  | none =>
    match scanOn output with
    | some n => n
    | none =>
      match scanBare output with
      | some n => n
      | none => 0

/-- What subprocess.run produced: completion with exit code and streams, or
one of the caught exceptions. -/
inductive RunOutcome where
  | completed (returncode : Int) (stdout : String) (stderr : String)
  | timedOut
  | fileNotFound
  | osError (msg : String)
deriving DecidableEq, Repr

/-- The environment PagefindBackend.index_all runs against. -/
structure PfEnv where
  buildDirExists : Bool
  pagefindCmd : Option (List String)
  run : RunOutcome
deriving DecidableEq, Repr

/-- PagefindBackend._run_pagefind: run the CLI, catch timeout/missing-file/
OS errors, reject nonzero exits, else parse the page count from stdout. -/
def run_pagefind (run : RunOutcome) : Nat :=
  match run with
  | .timedOut => 0
  | .fileNotFound => 0
  | .osError _ => 0
  | .completed returncode stdout _ =>
    if returncode ≠ 0 then 0 else parse_page_count stdout

/-- PagefindBackend.index_all. -/
def index_all (env : PfEnv) : Nat :=
  if !env.buildDirExists then 0
  else
    match env.pagefindCmd with
    | none => 0
    | some _ => run_pagefind env.run

end Pf

/-! ## Claims -/

/-- Admin API key presence as the source tests it:
`config.typesense_api_key or os.environ.get(ENV_API_KEY)`. -/
def adminKeyPresent (config : Config.BackendConfig) : Bool :=
  pyTruthy config.typesense_api_key || pyTruthyOpt config.envApiKey

/-- C6: get_effective_backend resolves auto to typesense exactly when an
admin API key is present in config or environment, to pagefind when none
is, and returns an explicit typesense/pagefind setting unchanged. -/
theorem C6_effective_backend (config : Config.BackendConfig) :
    (config.typesense_backend = "auto" → adminKeyPresent config = true →
      Config.get_effective_backend config = "typesense")
    ∧ (config.typesense_backend = "auto" → adminKeyPresent config = false →
      Config.get_effective_backend config = "pagefind")
    ∧ (config.typesense_backend = "typesense" →
      Config.get_effective_backend config = "typesense")
    ∧ (config.typesense_backend = "pagefind" →
      Config.get_effective_backend config = "pagefind") := by
  unfold Config.get_effective_backend adminKeyPresent
  refine ⟨fun h1 h2 => ?_, fun h1 h2 => ?_, fun h1 => ?_, fun h1 => ?_⟩ <;>
    simp_all [pyTruthy, pyTruthyOpt]

/-- C6 witness: the four branches at concrete configurations. -/
theorem C6_effective_backend_witness :
    Config.get_effective_backend ⟨"auto", "k", none⟩ = "typesense"
    ∧ Config.get_effective_backend ⟨"auto", "", some ""⟩ = "pagefind"
    ∧ Config.get_effective_backend ⟨"typesense", "", none⟩ = "typesense"
    ∧ Config.get_effective_backend ⟨"pagefind", "k", none⟩ = "pagefind" :=
  ⟨(C6_effective_backend ⟨"auto", "k", none⟩).1 rfl (by decide),
   (C6_effective_backend ⟨"auto", "", some ""⟩).2.1 rfl (by decide),
   (C6_effective_backend ⟨"typesense", "", none⟩).2.2.1 rfl,
   (C6_effective_backend ⟨"pagefind", "k", none⟩).2.2.2 rfl⟩

/-- C7: an element carrying its own non-empty id attribute resolves to that
id, whatever its descendants, preceding siblings or enclosing sections
hold; this covers both _find_anchor and the `element.get("id", "") or ...`
entry in _create_document. -/
theorem C7_own_id_wins (ctx : Ctx) (element : Html)
    (h : element.getAttrD "id" "" ≠ "") :
    Ts.find_anchor ctx element = element.getAttrD "id" ""
    ∧ Ts.resolveAnchor ctx element = element.getAttrD "id" "" := by
  constructor
  · unfold Ts.find_anchor
    simp [h]
  · unfold Ts.resolveAnchor
    simp [h]

def c7Elem : Html :=
  Html.elem "h2" [("id", "a")] [Html.elem "a" [("id", "b")] [Html.text "T"]]

def c7Ctx : Ctx :=
  ⟨[Html.elem "a" [("id", "sib")] []], [Html.elem "section" [("id", "sec")] []]⟩

/-- C7 witness: own id "a" beats the child anchor id "b", a preceding
sibling anchor and an enclosing section id. -/
theorem C7_own_id_wins_witness :
    Ts.find_anchor c7Ctx c7Elem = "a" ∧ Ts.resolveAnchor c7Ctx c7Elem = "a" := by
  have h := C7_own_id_wins c7Ctx c7Elem (by decide)
  exact ⟨by rw [h.1]; decide, by rw [h.2]; decide⟩

/-- C9: a matched element whose trimmed text is empty is skipped: no
document is emitted and all four hierarchy fields are left unchanged. -/
theorem C9_empty_text_skipped (cfg : Ts.DocCfg) (url_base : String)
    (hierarchy : Ts.Hierarchy) (element : Html) (ctx : Ctx)
    (h : element.getTextStrip = "") :
    Ts.processElement cfg url_base hierarchy (element, ctx) = (hierarchy, []) := by
  unfold Ts.processElement
  simp [h]

/-- C9 witness: a whitespace-only h1 leaves a populated hierarchy intact
and yields nothing. -/
theorem C9_empty_text_skipped_witness :
    Ts.processElement ⟨"", "en"⟩ "x.html" ⟨"A", "B", "C", "D"⟩
      (Html.elem "h1" [] [Html.text "   "], ⟨[], []⟩) = (⟨"A", "B", "C", "D"⟩, []) :=
  C9_empty_text_skipped ⟨"", "en"⟩ "x.html" ⟨"A", "B", "C", "D"⟩
    (Html.elem "h1" [] [Html.text "   "]) ⟨[], []⟩ (by decide)

/-- C5: every document's id is the lowercase SHA-256 hex digest of
url (anchor included when resolved) ++ ":" ++ the first 100 characters of
the content, truncated to 32 hex characters. -/
theorem C5_document_id (cfg : Ts.DocCfg) (hierarchy : Ts.Hierarchy)
    (content url_base : String) (element : Html) (ctx : Ctx)
    (doc_type : String) :
    (Ts.create_document cfg hierarchy content url_base element ctx doc_type).id
      = (sha256Hex (Ts.docUrl ctx element url_base ++ ":" ++ content.take 100)).take 32 := by
  simp only [Ts.create_document, Ts.docUrl]

set_option maxRecDepth 100000 in
example :
    (Ts.create_document ⟨"", ""⟩ ⟨"Install", "", "", ""⟩ "" "guide.html"
        (Html.elem "h1" [("id", "x")] [Html.text "Install"]) ⟨[], []⟩ "lvl0").id
      = (sha256Hex "guide.html#x:").take 32 := by decide

/-- A page whose only content container carries class "document": the
generic fallback list of the theme registry would locate it via its
fourth selector, the indexing-time locator matches nothing. -/
def c1Doc : Html :=
  Html.elem "html" []
    [Html.elem "body" []
      [Html.elem "div" [("class", "document")]
        [Html.elem "h1" [] [Html.text "Title"]]]]

/-- C1 counterexample: with no custom selectors configured, the selector
list the indexing content locator tries is not the documented generic
fallback list (`article[role=main]`, `main`, `.body`, `.document`,
`[role=main]`); on a page that only the documented list would match
(via `.document`), _get_content_element finds nothing, while a first-match
scan over the documented list succeeds. -/
theorem C1_counterexample :
    Ts.selectors_used none ≠ Themes.DEFAULT_CONTENT_SELECTORS
    ∧ (Ts.get_content_element none c1Doc).isNone = true
    ∧ (Ts.firstSelectorMatch Themes.DEFAULT_CONTENT_SELECTORS c1Doc).isSome = true := by
  refine ⟨by decide, by decide, by decide⟩

/-- C1 (amended): whenever no custom typesense_content_selectors value is
configured (unset or empty), _get_content_element tries exactly the
hard-coded selectors `.wy-nav-content-wrap`, `article.bd-article`,
`.body`, `article[role=main]`, `main`, in that order, regardless of the
active theme, and returns the first match. -/
theorem C1_selectors_fallback (cfgSelectors : Option (List String)) (doc : Html)
    (h : cfgSelectors = none ∨ cfgSelectors = some []) :
    Ts.get_content_element cfgSelectors doc
      = Ts.firstSelectorMatch
          [".wy-nav-content-wrap", "article.bd-article", ".body",
           "article[role=main]", "main"] doc := by
  rcases h with h | h <;> subst h <;> rfl

def c1Doc2 : Html :=
  Html.elem "html" []
    [Html.elem "main" [] [Html.elem "h1" [] [Html.text "T"]]]

/-- C1 witness: on a page with a main element, the locator with an unset
selector configuration agrees with the first match of the hard-coded list,
and that match exists. -/
theorem C1_selectors_fallback_witness :
    Ts.get_content_element none c1Doc2
      = Ts.firstSelectorMatch
          [".wy-nav-content-wrap", "article.bd-article", ".body",
           "article[role=main]", "main"] c1Doc2
    ∧ (Ts.get_content_element none c1Doc2).isSome = true :=
  ⟨C1_selectors_fallback none c1Doc2 (Or.inl rfl), by decide⟩

/-- C8: PagefindBackend.index_all returns 0 when no executable is found,
when the subprocess times out, is missing or errors at the OS level, or
exits nonzero; when the run succeeds it returns the page count parsed by
trying "Indexed N pages", then "on N pages", then a bare "N pages", and 0
when none of the patterns hits. The model is a total function, so none of
these paths can raise. -/
theorem C8_pagefind_count (env : Pf.PfEnv) :
    (env.pagefindCmd = none → Pf.index_all env = 0)
    ∧ (env.run = .timedOut ∨ env.run = .fileNotFound ∨
        (∃ m, env.run = .osError m) → Pf.index_all env = 0)
    ∧ (∀ rc out err, env.run = .completed rc out err → rc ≠ 0 →
        Pf.index_all env = 0)
    ∧ (∀ out err, env.buildDirExists = true → env.pagefindCmd ≠ none →
        env.run = .completed 0 out err →
        Pf.index_all env = Pf.parse_page_count out)
    ∧ (∀ out n, Pf.scanIndexed out = some n → Pf.parse_page_count out = n)
    ∧ (∀ out n, Pf.scanIndexed out = none → Pf.scanOn out = some n →
        Pf.parse_page_count out = n)
    ∧ (∀ out n, Pf.scanIndexed out = none → Pf.scanOn out = none →
        Pf.scanBare out = some n → Pf.parse_page_count out = n)
    ∧ (∀ out, Pf.scanIndexed out = none → Pf.scanOn out = none →
        Pf.scanBare out = none → Pf.parse_page_count out = 0) := by
  obtain ⟨bde, cmd, run⟩ := env
  refine ⟨?_, ?_, ?_, ?_, ?_, ?_, ?_, ?_⟩
  · intro h
    subst h
    cases bde <;> rfl
  · rintro (h | h | ⟨m, h⟩) <;> subst h <;>
      cases bde <;> cases cmd <;> rfl
  · rintro rc out err h hrc
    subst h
    cases bde <;> cases cmd <;>
      simp [Pf.index_all, Pf.run_pagefind, hrc]
  · rintro out err hb hcmd hrun
    subst hb
    subst hrun
    cases cmd with
    | none => exact absurd rfl hcmd
    | some c => simp [Pf.index_all, Pf.run_pagefind]
  · intro out n h
    simp [Pf.parse_page_count, h]
  · intro out n h1 h2
    simp [Pf.parse_page_count, h1, h2]
  · intro out n h1 h2 h3
    simp [Pf.parse_page_count, h1, h2, h3]
  · intro out h1 h2 h3
    simp [Pf.parse_page_count, h1, h2, h3]

/-- C8 witness: a successful run whose stdout mentions both "on 7 pages"
and "Indexed 42 pages" parses to 42 (first pattern wins), and a missing
executable yields 0. -/
theorem C8_pagefind_count_witness :
    Pf.index_all
        ⟨true, some ["pagefind"],
         .completed 0 "Running Pagefind v1.3.0 on 7 pages\nIndexed 42 pages in 0.5s" ""⟩ = 42
    ∧ Pf.index_all ⟨true, none, .completed 0 "Indexed 9 pages" ""⟩ = 0 := by
  constructor
  · have h := (C8_pagefind_count
      ⟨true, some ["pagefind"],
       .completed 0 "Running Pagefind v1.3.0 on 7 pages\nIndexed 42 pages in 0.5s" ""⟩).2.2.2.1
      "Running Pagefind v1.3.0 on 7 pages\nIndexed 42 pages in 0.5s" ""
      rfl (by decide) rfl
    rw [h]
    decide
  · exact (C8_pagefind_count ⟨true, none, .completed 0 "Indexed 9 pages" ""⟩).1 rfl

/-- A transient failure is neither a healthy reply nor an auth rejection. -/
theorem transientErr_ne {r : Ts.HealthResult} (h : Ts.isTransientErr r = true) :
    r ≠ Ts.HealthResult.healthy ∧ r ≠ Ts.HealthResult.requestUnauthorized := by
  cases r <;> simp_all [Ts.isTransientErr]

/-- C3: with no cached verdict, three transient failures (ServiceUnavailable,
timeout, network error) make the connection check return false after exactly
3 attempts with backoff sleeps 1.0s then 2.0s between attempts and none
after the last; an auth failure at attempt k+1 (after k transient attempts,
k < 3) returns false immediately after k+1 attempts, keeping only the k
sleeps that preceded it; is_available reports the same false verdict. -/
theorem C3_retry_and_auth (health : Nat → Ts.HealthResult) :
    ((∀ i, 1 ≤ i → i ≤ 3 → Ts.isTransientErr (health i) = true) →
      Ts.check_connection none health = ⟨false, [1, 2], 3⟩
      ∧ Ts.is_available none health = false)
    ∧ (∀ k, k < 3 →
        (∀ i, 1 ≤ i → i ≤ k → Ts.isTransientErr (health i) = true) →
        health (k + 1) = Ts.HealthResult.requestUnauthorized →
        Ts.check_connection none health = ⟨false, List.take k [1, 2], k + 1⟩
        ∧ Ts.is_available none health = false) := by
  constructor
  · intro hyp
    have e1 := transientErr_ne (hyp 1 (by omega) (by omega))
    have e2 := transientErr_ne (hyp 2 (by omega) (by omega))
    have e3 := transientErr_ne (hyp 3 (by omega) (by omega))
    have hc : Ts.check_connection none health = ⟨false, [1, 2], 3⟩ := by
      simp [Ts.check_connection, Ts.MAX_RETRIES, Ts.INITIAL_BACKOFF_SECONDS,
        Ts.BACKOFF_MULTIPLIER, Ts.connLoop, e1.1, e1.2, e2.1, e2.2, e3.1, e3.2]
    exact ⟨hc, by simp [Ts.is_available, hc]⟩
  · intro k hk hyp hauth
    interval_cases k
    · have hc : Ts.check_connection none health = ⟨false, [], 1⟩ := by
        simp [Ts.check_connection, Ts.MAX_RETRIES, Ts.INITIAL_BACKOFF_SECONDS,
          Ts.BACKOFF_MULTIPLIER, Ts.connLoop, hauth]
      exact ⟨by simpa using hc, by simp [Ts.is_available, hc]⟩
    · have e1 := transientErr_ne (hyp 1 (by omega) (by omega))
      have hc : Ts.check_connection none health = ⟨false, [1], 2⟩ := by
        simp [Ts.check_connection, Ts.MAX_RETRIES, Ts.INITIAL_BACKOFF_SECONDS,
          Ts.BACKOFF_MULTIPLIER, Ts.connLoop, e1.1, e1.2, hauth]
      exact ⟨by simpa using hc, by simp [Ts.is_available, hc]⟩
    · have e1 := transientErr_ne (hyp 1 (by omega) (by omega))
      have e2 := transientErr_ne (hyp 2 (by omega) (by omega))
      have hc : Ts.check_connection none health = ⟨false, [1, 2], 3⟩ := by
        simp [Ts.check_connection, Ts.MAX_RETRIES, Ts.INITIAL_BACKOFF_SECONDS,
          Ts.BACKOFF_MULTIPLIER, Ts.connLoop, e1.1, e1.2, e2.1, e2.2, hauth]
      exact ⟨by simpa using hc, by simp [Ts.is_available, hc]⟩

/-- C3 witness: an always-ServiceUnavailable server exhausts the 3 attempts
with sleeps [1, 2]; a network error then an auth rejection stops after
attempt 2 with the single sleep that preceded it. -/
theorem C3_retry_and_auth_witness :
    (Ts.check_connection none (fun _ => Ts.HealthResult.serviceUnavailable)
        = ⟨false, [1, 2], 3⟩
      ∧ Ts.is_available none (fun _ => Ts.HealthResult.serviceUnavailable) = false)
    ∧ (Ts.check_connection none
          (fun i => if i = 1 then Ts.HealthResult.connError
            else Ts.HealthResult.requestUnauthorized)
        = ⟨false, List.take 1 [1, 2], 2⟩
      ∧ Ts.is_available none
          (fun i => if i = 1 then Ts.HealthResult.connError
            else Ts.HealthResult.requestUnauthorized) = false) :=
  ⟨(C3_retry_and_auth (fun _ => Ts.HealthResult.serviceUnavailable)).1
      (fun i _ _ => by decide),
   (C3_retry_and_auth
      (fun i => if i = 1 then Ts.HealthResult.connError
        else Ts.HealthResult.requestUnauthorized)).2 1 (by omega)
      (fun i h1 h2 => by interval_cases i; decide) (by decide)⟩

/-- An environment where the server answers its health check and then a
network error strikes while the collection is being created: the creation
failure is not an "already exists" error, so _ensure_collection re-raises
it out of index_all. -/
def c2Env : Ts.TsEnv :=
  { cached := none
    health := fun _ => Ts.HealthResult.healthy
    dropExisting := false
    deleteOutcome := Except.ok ()
    createOutcome := Except.error ⟨Ts.ExKind.connectionError, "Connection refused"⟩
    cfgSelectors := none
    docCfg := ⟨"", "en"⟩
    files := []
    importOutcome := Except.ok [] }

/-- C2 counterexample: an environmental failure (network error during
collection creation, after a passing health check) escapes index_all as an
exception instead of degrading to 0. -/
theorem C2_counterexample :
    Ts.index_all c2Env
      = Except.error ⟨Ts.ExKind.connectionError, "Connection refused"⟩ := by
  decide

/-- C2 (amended): index_all returns 0 without raising when the connection
check fails, and when the check and collection ensure succeed it catches
every environmental bulk-import failure (ServiceUnavailable, timeouts,
HTTPStatus0, connection/OS errors) and returns 0; but a failure raised
while ensuring the collection (other than "already exists") propagates. -/
theorem C2_env_failures (env : Ts.TsEnv) :
    ((Ts.check_connection env.cached env.health).ok = false →
      Ts.index_all env = Except.ok 0)
    ∧ (∀ e, Ts.ensure_collection env = Except.ok () →
        env.importOutcome = Except.error e → Ts.importCaught e.kind = true →
        Ts.index_all env = Except.ok 0) := by
  constructor
  · intro h
    simp [Ts.index_all, h]
  · intro e hens himp hkind
    by_cases hok : (Ts.check_connection env.cached env.health).ok = false
    · simp [Ts.index_all, hok]
    · by_cases hemp : (Ts.extractedDocs env).isEmpty
      · have hnil : Ts.extractedDocs env = [] := by
          cases h' : Ts.extractedDocs env with
          | nil => rfl
          | cons a t => rw [h'] at hemp; simp [List.isEmpty] at hemp
        simp [Ts.index_all, hok, hens, hnil]
      · simp [Ts.index_all, hok, hens, hemp, himp, hkind]

/-- An unavailable server, and a reachable server whose bulk import dies
with a timeout after documents were extracted. -/
def c2EnvDown : Ts.TsEnv :=
  { cached := none
    health := fun _ => Ts.HealthResult.connError
    dropExisting := false
    deleteOutcome := Except.ok ()
    createOutcome := Except.ok ()
    cfgSelectors := none
    docCfg := ⟨"", "en"⟩
    files := []
    importOutcome := Except.ok [] }

def c10Doc : Html :=
  Html.elem "html" []
    [Html.elem "main" []
      [Html.elem "h1" [] [Html.text "Install"],
       Html.elem "p" [] [Html.text "Steps here"]]]

def c2EnvImportFail : Ts.TsEnv :=
  { cached := some true
    health := fun _ => Ts.HealthResult.healthy
    dropExisting := false
    deleteOutcome := Except.ok ()
    createOutcome := Except.ok ()
    cfgSelectors := none
    docCfg := ⟨"", "en"⟩
    files := [⟨"guide.html", some c10Doc⟩]
    importOutcome := Except.error ⟨Ts.ExKind.reqTimeout, "timed out"⟩ }

set_option maxRecDepth 1000000 in
/-- C2 witness: a down server yields 0, and a timeout during the bulk
upload of a nonempty extraction also yields 0. -/
theorem C2_env_failures_witness :
    Ts.index_all c2EnvDown = Except.ok 0
    ∧ Ts.index_all c2EnvImportFail = Except.ok 0 :=
  ⟨(C2_env_failures c2EnvDown).1 (by decide),
   (C2_env_failures c2EnvImportFail).2 ⟨Ts.ExKind.reqTimeout, "timed out"⟩
      (by decide) rfl (by decide)⟩

/-- C10: whenever the connection check passes and the bulk import call
returns (whatever its per-item success flags say), index_all reports the
total number of extracted documents. -/
theorem C10_import_count (env : Ts.TsEnv) (items : List Bool)
    (hok : (Ts.check_connection env.cached env.health).ok = true)
    (hens : Ts.ensure_collection env = Except.ok ())
    (himp : env.importOutcome = Except.ok items) :
    Ts.index_all env = Except.ok (Ts.extractedDocs env).length := by
  by_cases hemp : (Ts.extractedDocs env).isEmpty
  · simp [Ts.index_all, hok, hens, hemp]
  · simp [Ts.index_all, hok, hens, hemp, himp]

def c10Env : Ts.TsEnv :=
  { cached := some true
    health := fun _ => Ts.HealthResult.healthy
    dropExisting := false
    deleteOutcome := Except.ok ()
    createOutcome := Except.ok ()
    cfgSelectors := none
    docCfg := ⟨"", "en"⟩
    files := [⟨"guide.html", some c10Doc⟩]
    importOutcome := Except.ok [true, false] }

set_option maxRecDepth 1000000 in
/-- C10 witness: two documents extracted (an h1 and a paragraph), one of
the two per-item results a failure, and index_all still reports 2. -/
theorem C10_import_count_witness : Ts.index_all c10Env = Except.ok 2 := by
  have h := C10_import_count c10Env [true, false] (by decide) (by decide) rfl
  rw [h]
  decide

/-- The hierarchy reset rule as visible on an emitted document: a heading
document carries its own level set and every lower level cleared. -/
def hierarchyResetOk (d : Ts.Document) : Prop :=
  (d.type = "lvl0" → d.lvl0 ≠ "" ∧ d.lvl1 = "" ∧ d.lvl2 = "" ∧ d.lvl3 = "")
  ∧ (d.type = "lvl1" → d.lvl1 ≠ "" ∧ d.lvl2 = "" ∧ d.lvl3 = "")
  ∧ (d.type = "lvl2" → d.lvl2 ≠ "" ∧ d.lvl3 = "")
  ∧ (d.type = "lvl3" → d.lvl3 ≠ "")

/-- Every document one loop step emits obeys the reset rule, whatever the
incoming hierarchy state held. -/
theorem processElement_resetOk (cfg : Ts.DocCfg) (url_base : String)
    (hierarchy : Ts.Hierarchy) (ec : Html × Ctx) :
    ∀ d ∈ (Ts.processElement cfg url_base hierarchy ec).2, hierarchyResetOk d := by
  obtain ⟨e, ctx⟩ := ec
  intro d hd
  by_cases ht : e.getTextStrip = ""
  · simp [Ts.processElement, ht] at hd
  · by_cases h1 : e.tagOf = "h1"
    · simp [Ts.processElement, ht, h1] at hd
      subst hd
      simp [hierarchyResetOk, Ts.create_document, ht]
    · by_cases h2 : e.tagOf = "h2"
      · simp [Ts.processElement, ht, h1, h2] at hd
        subst hd
        simp [hierarchyResetOk, Ts.create_document, ht]
      · by_cases h3 : e.tagOf = "h3"
        · simp [Ts.processElement, ht, h1, h2, h3] at hd
          subst hd
          simp [hierarchyResetOk, Ts.create_document, ht]
        · by_cases h4 : e.tagOf = "h4"
          · simp [Ts.processElement, ht, h1, h2, h3, h4] at hd
            subst hd
            simp [hierarchyResetOk, Ts.create_document, ht]
          · by_cases h5 : e.tagOf = "p"
            · simp [Ts.processElement, ht, h1, h2, h3, h4, h5] at hd
              subst hd
              simp [hierarchyResetOk, Ts.create_document]
            · by_cases h6 : e.tagOf = "li"
              · simp [Ts.processElement, ht, h1, h2, h3, h4, h5, h6] at hd
                subst hd
                simp [hierarchyResetOk, Ts.create_document]
              · simp [Ts.processElement, ht, h1, h2, h3, h4, h5, h6] at hd

/-- The reset rule holds for every document the extraction loop yields,
from any starting state. -/
theorem extractLoop_resetOk (cfg : Ts.DocCfg) (url_base : String) :
    ∀ (l : List (Html × Ctx)) (hierarchy : Ts.Hierarchy),
      ∀ d ∈ Ts.extractLoop cfg url_base hierarchy l, hierarchyResetOk d := by
  intro l
  induction l with
  | nil => intro hierarchy d hd; simp [Ts.extractLoop] at hd
  | cons ec rest ih =>
    intro hierarchy d hd
    simp only [Ts.extractLoop] at hd
    rcases List.mem_append.mp hd with h' | h'
    · exact processElement_resetOk cfg url_base hierarchy ec d h'
    · exact ih _ d h'

/-- C4: every document _extract_documents emits satisfies the hierarchy
reset rule at emission time: an h1 document has lvl1-lvl3 empty, an h2
document has lvl2-lvl3 empty, an h3 document has lvl3 empty (each with its
own level set) — so an h2 document can never carry a lvl2/lvl3 value left
over from before the most recent h1. -/
theorem C4_hierarchy_reset (cfg : Ts.DocCfg) (url_base : String)
    (content : Html) (d : Ts.Document)
    (hd : d ∈ Ts.extract_documents cfg url_base content) : hierarchyResetOk d := by
  unfold Ts.extract_documents at hd
  exact extractLoop_resetOk cfg url_base _ _ d hd

/-- A page whose h3 sets lvl2 before the h2 arrives: the h2's document must
emit with lvl2 cleared again. -/
def c4Root : Html :=
  Html.elem "main" []
    [Html.elem "h1" [] [Html.text "A"],
     Html.elem "h3" [] [Html.text "C"],
     Html.elem "h2" [] [Html.text "B"]]

set_option maxRecDepth 1000000 in
/-- C4 witness: the third emitted document of the page (the h2) satisfies
the reset rule. -/
theorem C4_hierarchy_reset_witness :
    hierarchyResetOk
      ((Ts.extract_documents ⟨"", "en"⟩ "p.html" c4Root).get ⟨2, by decide⟩) :=
  C4_hierarchy_reset ⟨"", "en"⟩ "p.html" c4Root _ (List.get_mem _ 2 (by decide))

end SphinxTypesense
